import Mathlib

/-!
Verification of the shallarr-music web application (a Flask app over the Supabase
client SDK, `app.py` / `config.py`) against its natural-language specification.

The route handlers are embedded shallowly: pure helpers become Lean functions;
each handler becomes a function from its inputs (parsed JSON/form body, the
session, the relevant database tables, and oracles standing for the external
Supabase collaborator) to its response together with the updated state and a
trace of the external calls it made.  Machine integers are `Int`/`Nat`; string
operations from the Python standard library (`os.path.splitext`, `str.strip`,
`str.split`) are reimplemented character-by-character from their documented
semantics.

The file is organised as definitions first (the embedding), then theorems.
-/

namespace Shallarr

/-! ## Config constants (`app.py`, class `Config`) -/

def MAX_AUDIO_SIZE : Nat := 50 * 1024 * 1024

def MAX_COVER_SIZE : Nat := 10 * 1024 * 1024

def TOKEN_REFRESH_BUFFER : Int := 300

/-! ## Python string primitives -/

/-- Python truthiness of an optional string (`data.get(...)` results): `None`
and the empty string are falsy, as tested by `all([...])` and `if not x`. -/
def truthy : Option String → Bool
  | none => false
  | some s => s != ""

/-- Whitespace as recognised by Python `str.isspace()`, which is exactly what
`str.strip()` removes: the code points U+0009-U+000D, U+001C-U+001F, U+0020,
U+0085, U+00A0, U+1680, U+2000-U+200A, U+2028, U+2029, U+202F, U+205F and
U+3000 — CPython's definition (bidirectional class WS, B or S, or general
category Zs), enumerated over all of Unicode. -/
def isPySpace (c : Char) : Bool :=
  (decide ('\x09' ≤ c) && decide (c ≤ '\x0D')) ||
  (decide ('\x1C' ≤ c) && decide (c ≤ '\x1F')) ||
  c == '\x20' || c == '\x85' || c == '\xA0' || c == '\u1680' ||
  (decide ('\u2000' ≤ c) && decide (c ≤ '\u200A')) ||
  c == '\u2028' || c == '\u2029' || c == '\u202F' || c == '\u205F' || c == '\u3000'

/-- Python `str.strip()`: drop leading and trailing whitespace. -/
def pyStrip (s : String) : String :=
  ⟨((s.data.dropWhile isPySpace).reverse.dropWhile isPySpace).reverse⟩

/-- Index of the last occurrence of `c` in the list (Python `str.rfind`),
`none` when absent. -/
def lastIdx (c : Char) : List Char → Option Nat
  | [] => none
  | x :: xs =>
    match lastIdx c xs with
    | some i => some (i + 1)
    | none => if x = c then some 0 else none

/-- Python `os.path.splitext` (posixpath): split at the last dot that lies
after the last `/` and is preceded, within the basename, by at least one
non-dot character (so leading dots of the basename never start an
extension). -/
def splitext (s : String) : String × String :=
  let p := s.data
  let sepIndex : Int := match lastIdx '/' p with
    | some i => (i : Int)
    | none => -1
  let dotIndex : Int := match lastIdx '.' p with
    | some i => (i : Int)
    | none => -1
  if sepIndex < dotIndex then
    let d := dotIndex.toNat
    let between := (p.take d).drop (sepIndex + 1).toNat
    if between.any (fun c => c != '.') then (⟨p.take d⟩, ⟨p.drop d⟩) else (s, "")
  else (s, "")

/-- Python `os.path.basename` (posixpath): everything after the last `/`. -/
def basename (s : String) : String :=
  match lastIdx '/' s.data with
  | some i => ⟨s.data.drop (i + 1)⟩
  | none => s

/-- Python `os.path.dirname` (posixpath): everything up to the last `/`, with
trailing slashes stripped unless the result is all slashes. -/
def dirname (s : String) : String :=
  match lastIdx '/' s.data with
  | none => ""
  | some i =>
    let head := s.data.take (i + 1)
    if head.any (fun c => c != '/') then ⟨(head.reverse.dropWhile (fun c => c == '/')).reverse⟩
    else ⟨head⟩

/-! ## Filename sanitization (`request_upload`, inner `sanitize_filename`) -/

/-- The character class `[a-zA-Z0-9_-]` of the regex in `sanitize_filename`. -/
def allowedChar (c : Char) : Bool :=
  (decide ('a' ≤ c) && decide (c ≤ 'z')) || (decide ('A' ≤ c) && decide (c ≤ 'Z')) ||
  (decide ('0' ≤ c) && decide (c ≤ '9')) || c == '_' || c == '-'

/-- The substitution `re.sub(r'[^a-zA-Z0-9_-]', '_', name)`: replace every
character outside the class with an underscore. -/
def replaceDisallowed (s : String) : String :=
  ⟨s.data.map (fun c => if allowedChar c then c else '_')⟩

/-- The inner `sanitize_filename` of `request_upload` (app.py lines 378-381):
split off the extension, clean the name portion, reattach the extension. -/
def sanitize_filename (filename : String) : String :=
  replaceDisallowed (splitext filename).1 ++ (splitext filename).2

/-! ## Request-upload handler (`/api/request-upload`, app.py lines 357-405) -/

/-- One call to the storage collaborator
(`supabase_admin.storage.from_(bucket).create_signed_upload_url(path)`). -/
structure StorageCall where
  bucket : String
  path : String
deriving DecidableEq

/-- The JSON payload returned on success by `request_upload`. -/
structure SignedUploadPayload where
  upload_id : String
  audio_upload_url : String
  audio_path : String
  audio_token : String
  cover_upload_url : String
  cover_path : String
  cover_token : String
  expires_in : Nat
deriving DecidableEq

/-- A handler response: either the success payload or
`jsonify({'error': msg}), status`. -/
inductive RequestUploadResult
  | ok (payload : SignedUploadPayload)
  | err (status : Nat) (msg : String)
deriving DecidableEq

/-- The parsed JSON body of a request-upload call; `none` models an absent
key, so `data.get('audio_size', 0)` is `(b.audio_size).getD 0`. -/
structure RequestUploadBody where
  audio_filename : Option String
  cover_filename : Option String
  audio_size : Option Int
  cover_size : Option Int

/-- The `request_upload` handler body.  `uuid` stands for the fresh
`str(uuid.uuid4())` drawn by the call, and `sign` for the storage collaborator
issuing `(signedUrl, token)` pairs.  The second component of the result is the
trace of storage calls the handler made; the handler contains no database
call at all. -/
def request_upload (uuid : String) (sign : StorageCall → String × String)
    (b : RequestUploadBody) : RequestUploadResult × List StorageCall :=
  let audio_size := b.audio_size.getD 0
  let cover_size := b.cover_size.getD 0
  if !(truthy b.audio_filename && truthy b.cover_filename) then
    (.err 400 "Missing required fields", [])
  else if audio_size > (MAX_AUDIO_SIZE : Int) then
    (.err 400 "Audio too large. Max: 50MB", [])
  else if cover_size > (MAX_COVER_SIZE : Int) then
    (.err 400 "Cover too large. Max: 10MB", [])
  else
    let safe_audio_name := sanitize_filename (b.audio_filename.getD "")
    let safe_cover_name := sanitize_filename (b.cover_filename.getD "")
    let audio_path := "audios/" ++ uuid ++ "_" ++ safe_audio_name
    let cover_path := uuid ++ "_" ++ safe_cover_name
    let audio_upload_data := sign ⟨"music", audio_path⟩
    let cover_upload_data := sign ⟨"covers", cover_path⟩
    (.ok { upload_id := uuid
           audio_upload_url := audio_upload_data.1
           audio_path := audio_path
           audio_token := audio_upload_data.2
           cover_upload_url := cover_upload_data.1
           cover_path := cover_path
           cover_token := cover_upload_data.2
           expires_in := 900 },
     [⟨"music", audio_path⟩, ⟨"covers", cover_path⟩])

/-! ## Signup handler (`/signup` POST branch, app.py lines 222-270) -/

/-- The client-held user session dict built at login/signup; `Option` fields
model `dict.get` access (`access_token`, `refresh_token`, `expires_at`). -/
structure SessionUser where
  id : String
  email : String
  username : String
  access_token : Option String
  refresh_token : Option String
  expires_at : Option Int
deriving DecidableEq

/-- The POSTed signup form; `none` models an absent field, and
`request.form.get(key, '')` is `getD ""`. -/
structure SignupForm where
  email : Option String
  password : Option String
  username : Option String

/-- Outcome of the collaborator call `supabase.auth.sign_up(...)`: an
exception, a response without a user, a user without a session (email
confirmation pending), or a user with a session. -/
inductive AuthSignUpResult
  | raises
  | noUser
  | userNoSession (uid uemail : String)
  | userSession (uid uemail access_tok refresh_tok : String) (expires : Int)

/-- Response of the signup POST handler: a flash message plus a redirect to
the signup page, the login page, or the index page. -/
inductive SignupResponse
  | redirectSignup (flashMsg : String)
  | redirectLogin (flashMsg : String)
  | redirectIndex (flashMsg : String)
deriving DecidableEq

/-- The POST branch of the `signup` handler.  Returns the response, the
number of `sign_up` calls issued to the collaborator, and the session stored
(if any). -/
def signup_post (form : SignupForm) (auth : AuthSignUpResult) :
    SignupResponse × Nat × Option SessionUser :=
  let email := pyStrip (form.email.getD "")
  let password := pyStrip (form.password.getD "")
  let username := pyStrip (form.username.getD "")
  if email = "" ∨ password = "" ∨ username = "" then
    (.redirectSignup "All fields required.", 0, none)
  else if password.length < 8 then
    (.redirectSignup "Password must be at least 8 characters.", 0, none)
  else if username.length < 3 then
    (.redirectSignup "Username must be at least 3 characters.", 0, none)
  else
    match auth with
    | .raises => (.redirectSignup "Could not create account.", 1, none)
    | .noUser => (.redirectSignup "Signup failed. Email may be in use.", 1, none)
    | .userNoSession _ _ =>
        (.redirectLogin "Account created! Check your email to confirm your account.", 1, none)
    | .userSession uid uemail atok rtok exp =>
        (.redirectIndex "Account created successfully!", 1,
         some ⟨uid, uemail, username, some atok, some rtok, some exp⟩)

/-! ## Session/token manager (app.py lines 78-120) -/

/-- Outcome of the collaborator call `supabase.auth.refresh_session(token)`:
an exception, a response whose `session` is falsy, or fresh tokens. -/
inductive RefreshOutcome
  | raises
  | noSession
  | refreshed (access_tok refresh_tok : String) (expires : Int)
deriving DecidableEq

/-- The helper `check_token_expiry`: true when a session exists and its
recorded expiry (`.get('expires_at', 0)`) is less than
`TOKEN_REFRESH_BUFFER` seconds away from the current time.  Python compares
floats; times are modelled as whole seconds. -/
def check_token_expiry (sess : Option SessionUser) (now : Int) : Bool :=
  match sess with
  | none => false
  | some u => decide (u.expires_at.getD 0 - now < TOKEN_REFRESH_BUFFER)

/-- The helper `refresh_user_token`: with a session and a truthy stored
refresh token, issue one `refresh_session` call; on fresh tokens replace
access token, refresh token and expiry in place and report success; otherwise
report failure and leave the session untouched.  The third component is the
trace of `refresh_session` calls (the token passed to each). -/
def refresh_user_token (sess : Option SessionUser) (oracle : RefreshOutcome) :
    Bool × Option SessionUser × List String :=
  match sess with
  | none => (false, none, [])
  | some u =>
    if truthy u.refresh_token then
      match oracle with
      | .raises => (false, some u, [u.refresh_token.getD ""])
      | .noSession => (false, some u, [u.refresh_token.getD ""])
      | .refreshed atok rtok exp =>
          (true,
           some { u with access_token := some atok, refresh_token := some rtok,
                         expires_at := some exp },
           [u.refresh_token.getD ""])
    else (false, some u, [])

/-- What the `before_request` hook tells Flask to do: fall through to the
target handler, or short-circuit with a flash message and a redirect to the
login page. -/
inductive BeforeRequestAction
  | proceed
  | redirectLogin (flashMsg : String)
deriving DecidableEq

/-- The `refresh_token_if_needed` before-request hook: when a session exists
and `check_token_expiry` fires, run `refresh_user_token` once; on failure pop
the session and, unless the endpoint is in the allow-list, redirect to the
login page.  Returns the session after the hook, the dispatch action, and the
trace of `refresh_session` calls. -/
def refresh_token_if_needed (sess : Option SessionUser) (now : Int) (endpoint : String)
    (oracle : RefreshOutcome) : Option SessionUser × BeforeRequestAction × List String :=
  if sess.isSome && check_token_expiry sess now then
    let r := refresh_user_token sess oracle
    if r.1 then (r.2.1, .proceed, r.2.2)
    else
      if endpoint ∈ ["login", "signup", "index", "static"] then (none, .proceed, r.2.2)
      else (none, .redirectLogin "Session expired. Please log in again.", r.2.2)
  else (sess, .proceed, [])

/-! ## Data model: songs and likes -/

/-- A row of the `songs` table, as inserted by `finalize_upload` and mutated
by the like/stream counters. -/
structure Song where
  id : Nat
  title : String
  artist : String
  featured_artist : Option String
  audio_url : String
  cover_url : String
  uploader_id : String
  streams : Int
  likes : Int
  created_at : String
deriving DecidableEq

/-- A row of the `likes` table: existence-only record for a (user, song)
pair. -/
structure LikeRow where
  user_id : String
  song_id : Nat
deriving DecidableEq

/-- The shared mutable state touched by the like toggle. -/
structure MusicDB where
  songs : List Song
  likes : List LikeRow
deriving DecidableEq

/-- Modelled from the spec: the `increment_likes` stored procedure lives in
the external data service (only its `rpc` call site is in this repository);
per the spec it is a single SQL increment of the song's like counter. -/
def increment_likes (songs : List Song) (song_id : Nat) : List Song :=
  songs.map (fun s => if s.id = song_id then { s with likes := s.likes + 1 } else s)

/-- Modelled from the spec: the `decrement_likes` stored procedure lives in
the external data service; per the spec it is a single SQL decrement of the
song's like counter. -/
def decrement_likes (songs : List Song) (song_id : Nat) : List Song :=
  songs.map (fun s => if s.id = song_id then { s with likes := s.likes - 1 } else s)

/-- The re-read at the end of `like_song`:
`table('songs').select('likes').eq('id', song_id).single()`, yielding
`song.data['likes'] if song.data else 0`. -/
def selectLikesSingle (songs : List Song) (song_id : Nat) : Int :=
  match songs.find? (fun s => s.id == song_id) with
  | some s => s.likes
  | none => 0

/-- Whether a Like row for the pair exists (truthiness of the existence
query's result set). -/
def hasLike (likes : List LikeRow) (user_id : String) (song_id : Nat) : Bool :=
  likes.any (fun l => l.user_id == user_id && l.song_id == song_id)

/-- The `like_song` handler (app.py lines 483-521), read-then-branch: query
the Like rows for the pair; if some exist, delete them and decrement the
song's counter; otherwise insert one and increment it; then re-read and
return the counter.  (The source tests the non-empty case first via
`if existing.data:`; the branches are swapped here with the test negated.)
Returns the updated state, the `is_liked` flag, and the returned counter. -/
def like_song (db : MusicDB) (user_id : String) (song_id : Nat) :
    MusicDB × Bool × Int :=
  let existing := db.likes.filter (fun l => l.user_id == user_id && l.song_id == song_id)
  if existing.isEmpty then
    let likes2 := db.likes ++ [⟨user_id, song_id⟩]
    let songs2 := increment_likes db.songs song_id
    (⟨songs2, likes2⟩, true, selectLikesSingle songs2 song_id)
  else
    let likes2 := db.likes.filter (fun l => !(l.user_id == user_id && l.song_id == song_id))
    let songs2 := decrement_likes db.songs song_id
    (⟨songs2, likes2⟩, false, selectLikesSingle songs2 song_id)

/-! ## Finalize-upload handler (`/api/finalize-upload`, app.py lines 407-466) -/

/-- The JSON body of a finalize-upload call; `data.get(key, '')` is
`getD ""`, `data.get(key)` is the bare `Option`. -/
structure FinalizeBody where
  title : Option String
  artist : Option String
  featured_artist : Option String
  audio_path : Option String
  cover_path : Option String
  upload_id : Option String

/-- A finalize-upload response: the new row's identifier on success, or
`jsonify({'error': msg}), status`. -/
inductive FinalizeResult
  | ok (song_id : Nat)
  | err (status : Nat) (msg : String)
deriving DecidableEq

/-- The collaborators used by `finalize_upload`: `listMusic p` and
`listCovers p` model `storage.from_(bucket).list(path=p)` — the entry names
directly under folder `p`, or an exception; `publicUrl bucket path` models
`get_public_url`. -/
structure FinalizeEnv where
  listMusic : String → Except Unit (List String)
  listCovers : String → Except Unit (List String)
  publicUrl : String → String → String

/-- The creation-timestamp expression of `finalize_upload` (app.py line 449):
`datetime.now(datetime.UTC).isoformat()`.  `datetime` there names the class
`datetime.datetime` (bound by `from datetime import datetime, timedelta`),
and that class has no `UTC` attribute in any CPython version — the `UTC`
alias was added in Python 3.11 to the `datetime` module, not to the class —
so evaluating the expression raises `AttributeError` instead of producing a
timestamp string. -/
def created_at_now_utc : Except String String :=
  .error "AttributeError: type object datetime.datetime has no attribute UTC"

/-- Modelled from the spec: identifier assignment happens inside the external
data service when the row is inserted into `songs` (a primary key the service
generates); the insert returns the row carrying a fresh identifier strictly
larger than every identifier already in the table. -/
def nextId (songs : List Song) : Nat := (songs.map Song.id).foldr max 0 + 1

/-- The `finalize_upload` handler body, parameterized by the result `ts` of
the creation-timestamp expression (the source evaluates
`created_at_now_utc` there): check all fields are present, verify both
storage objects exist by listing the containing folder and matching the
basename, resolve the two public URLs, build the Song row and insert it.  A
raised `ts` is caught by the handler's outer `except`, producing the generic
500.  Returns the response and the `songs` table after the call. -/
def finalize_upload_with (ts : Except String String) (env : FinalizeEnv) (uid : String)
    (songs : List Song) (b : FinalizeBody) : FinalizeResult × List Song :=
  let title := pyStrip (b.title.getD "")
  let artist := pyStrip (b.artist.getD "")
  let featured_artist := pyStrip (b.featured_artist.getD "")
  if !(title != "" && artist != "" && truthy b.audio_path && truthy b.cover_path &&
      truthy b.upload_id) then
    (.err 400 "Missing required fields", songs)
  else
    let audio_path := b.audio_path.getD ""
    let cover_path := b.cover_path.getD ""
    match env.listMusic (dirname audio_path), env.listCovers (dirname cover_path) with
    | .ok audio_info, .ok cover_info =>
      let audio_exists := audio_info.any (fun f => f == basename audio_path)
      let cover_exists := cover_info.any (fun f => f == basename cover_path)
      if !(audio_exists && cover_exists) then
        (.err 400 "File verification failed", songs)
      else
        let audio_url := env.publicUrl "music" audio_path
        let cover_url := env.publicUrl "covers" cover_path
        match ts with
        | .error _ => (.err 500 "Could not finalize upload", songs)
        | .ok created_at =>
          let row : Song :=
            { id := nextId songs, title := title, artist := artist
              featured_artist := if featured_artist != "" then some featured_artist else none
              audio_url := audio_url, cover_url := cover_url, uploader_id := uid
              streams := 0, likes := 0, created_at := created_at }
          (.ok row.id, songs ++ [row])
    | _, _ => (.err 500 "Could not verify files", songs)

/-- The `finalize_upload` handler exactly as the source has it: the timestamp
expression raises (see `created_at_now_utc`). -/
def finalize_upload (env : FinalizeEnv) (uid : String) (songs : List Song)
    (b : FinalizeBody) : FinalizeResult × List Song :=
  finalize_upload_with created_at_now_utc env uid songs b

/-- Modelled from the spec: `finalize_upload` with the creation timestamp set
to the call time `now` ("creation timestamp set to call time"), the behaviour
the spec describes and the source's `datetime.now(...)` expression plainly
intends. -/
def finalize_upload_fixed (env : FinalizeEnv) (uid now : String) (songs : List Song)
    (b : FinalizeBody) : FinalizeResult × List Song :=
  finalize_upload_with (.ok now) env uid songs b

/-- A concrete finalize environment in which both referenced objects exist. -/
def exFinalizeEnv : FinalizeEnv where
  listMusic := fun p => if p == "audios" then .ok ["u1_song.mp3"] else .ok []
  listCovers := fun p => if p == "" then .ok ["u1_cover.png"] else .ok []
  publicUrl := fun bucket path => "https://cdn.example/" ++ bucket ++ "/" ++ path

/-- A concrete valid finalize body referencing the objects of
`exFinalizeEnv`. -/
def exFinalizeBody : FinalizeBody :=
  ⟨some "Song", some "Artist", none, some "audios/u1_song.mp3", some "u1_cover.png", some "u1"⟩

/-! ## Orphan cleanup job (`cleanup_orphaned_files`, app.py lines 641-671) -/

/-- A storage object as returned by listing the `music` bucket: its entry
name and the instant its ISO-8601 `created_at` field denotes, in whole
seconds (the `datetime.fromisoformat` parse is abstracted to the timestamp it
yields). -/
structure MusicObject where
  name : String
  created_at : Int
deriving DecidableEq

/-- The cleanup grace period, `timedelta(days=1)`, in seconds. -/
def GRACE_PERIOD : Int := 86400

/-- Helper for `pySplit`: greedy left-to-right split on the (non-empty)
separator, non-overlapping, as Python `str.split(sep)` scans; the fuel is an
upper bound on the input length, so the fuel-exhausted case is never hit when
called through `pySplit`. -/
def pySplitAux (sep : List Char) : Nat → List Char → List (List Char)
  | _, [] => [[]]
  | 0, l => [l]
  | fuel + 1, c :: rest =>
    if sep.isPrefixOf (c :: rest) && !sep.isEmpty then
      [] :: pySplitAux sep fuel ((c :: rest).drop sep.length)
    else
      match pySplitAux sep fuel rest with
      | [] => [[c]]
      | h :: t => (c :: h) :: t

/-- Python `str.split(sep)` for a non-empty separator: the pieces between
consecutive non-overlapping occurrences of `sep`, scanned left to right. -/
def pySplit (sep s : String) : List String :=
  (pySplitAux sep.data s.data.length s.data).map (fun l => ⟨l⟩)

/-- The referenced-path set built by `cleanup_orphaned_files`: for each Song
row's `audio_url`, the last piece of `url.split('/music/')`
(`url.split('/music/')[-1]`) when the URL contains `/music/` (the split has
more than one piece) and that piece is non-empty (`if path:`); other URLs
contribute nothing. -/
def db_paths (audio_urls : List String) : List String :=
  audio_urls.foldr (fun url acc =>
    let parts := pySplit "/music/" url
    if parts.length > 1 && parts.getLastD "" != "" then parts.getLastD "" :: acc else acc) []

/-- The decision logic of the `cleanup_orphaned_files` CLI job: among the
listed objects, remove exactly those whose name is not a referenced path and
whose age (now minus creation instant) strictly exceeds the one-day grace
period.  (In the source a removal error aborts the rest of the run, so only a
prefix of this list may actually be removed; every removed object still comes
from this list.) -/
def cleanup_orphaned_files (now : Int) (storage_files : List MusicObject)
    (audio_urls : List String) : List MusicObject :=
  storage_files.filter (fun f =>
    !((db_paths audio_urls).contains f.name) && decide (now - f.created_at > GRACE_PERIOD))

/-! ## Sanity checks on the string primitives -/

example : sanitize_filename "My Song (final)!!.mp3" = "My_Song__final___.mp3" := by decide

example : splitext "a.tar.gz" = ("a.tar", ".gz") := by decide

example : splitext ".bashrc" = (".bashrc", "") := by decide

example : dirname "audios/x.mp3" = "audios" ∧ basename "audios/x.mp3" = "x.mp3" := by decide

example : dirname "x.png" = "" ∧ basename "x.png" = "x.png" := by decide

example : pyStrip "  a b " = "a b" := by decide

example : db_paths ["https://h/storage/v1/object/public/music/audios/u_s.mp3", "no-bucket"]
    = ["audios/u_s.mp3"] := by decide

/-! ## Claim C4: filename sanitization -/

/-- Claim C4: filename sanitization is a deterministic function: the input is
split into name portion and extension, every character of the name portion
outside `[A-Za-z0-9_-]` is replaced with `_` (so the name portion of the
output contains only characters of that class) and the extension is appended
unchanged; on `"My Song (final)!!.mp3"` the extension `.mp3` is preserved and
the output is `"My_Song__final___.mp3"`. -/
theorem sanitize_filename_spec :
    (∀ filename : String,
      sanitize_filename filename
        = replaceDisallowed (splitext filename).1 ++ (splitext filename).2 ∧
      ∀ c ∈ (replaceDisallowed (splitext filename).1).data, allowedChar c = true) ∧
    sanitize_filename "My Song (final)!!.mp3" = "My_Song__final___.mp3" ∧
    (splitext "My Song (final)!!.mp3").2 = ".mp3" := by
  refine ⟨fun filename => ⟨rfl, ?_⟩, by decide, by decide⟩
  intro c hc
  simp only [replaceDisallowed, List.mem_map] at hc
  obtain ⟨a, -, ha⟩ := hc
  by_cases h : allowedChar a = true
  · rw [if_pos h] at ha; rw [← ha]; exact h
  · rw [if_neg h] at ha; rw [← ha]; decide

/-- Concrete instantiation of `sanitize_filename_spec` discharging its
membership hypothesis at the spec's example input. -/
theorem sanitize_filename_spec_witness : allowedChar 'M' = true :=
  (sanitize_filename_spec.1 "My Song (final)!!.mp3").2 'M' (by decide)

/-! ## Claims C3 and C9: request-upload validation -/

/-- Claim C3 as frozen is refuted on its missing-filename branch: it says the
validation error identifies the offending field, but with the audio filename
missing and, separately, with the cover filename missing, the handler returns
one and the same generic message, so the error names neither field. -/
theorem request_upload_missing_field_message_generic :
    (request_upload "u1" (fun c => (c.path, "tok"))
        ⟨none, some "cover.png", none, none⟩).1
      = .err 400 "Missing required fields" ∧
    (request_upload "u1" (fun c => (c.path, "tok"))
        ⟨some "song.mp3", none, none, none⟩).1
      = .err 400 "Missing required fields" := by
  exact ⟨rfl, rfl⟩

/-- Claim C3 (amended): whenever a filename is missing (absent or empty) or a
supplied size exceeds its configured limit (50 MiB audio, 10 MiB cover),
request-upload returns a 400 validation error and makes no storage call (the
trace is empty; the handler contains no database call anywhere); the
size-limit errors name the offending object (audio or cover), while a missing
filename yields the generic message naming no specific field. -/
theorem request_upload_validation_errors (uuid : String)
    (sign : StorageCall → String × String) (b : RequestUploadBody) :
    (truthy b.audio_filename = false ∨ truthy b.cover_filename = false →
      request_upload uuid sign b = (.err 400 "Missing required fields", [])) ∧
    (truthy b.audio_filename = true → truthy b.cover_filename = true →
      b.audio_size.getD 0 > (MAX_AUDIO_SIZE : Int) →
      request_upload uuid sign b = (.err 400 "Audio too large. Max: 50MB", [])) ∧
    (truthy b.audio_filename = true → truthy b.cover_filename = true →
      b.audio_size.getD 0 ≤ (MAX_AUDIO_SIZE : Int) →
      b.cover_size.getD 0 > (MAX_COVER_SIZE : Int) →
      request_upload uuid sign b = (.err 400 "Cover too large. Max: 10MB", [])) := by
  refine ⟨fun h => ?_, fun h1 h2 h3 => ?_, fun h1 h2 h3 h4 => ?_⟩
  · rcases h with h | h <;> simp [request_upload, h]
  · simp [request_upload, h1, h2, h3]
  · simp [request_upload, h1, h2, not_lt.mpr h3, h4]

/-- Concrete instantiation of `request_upload_validation_errors`: an audio
size of `MAX_AUDIO_SIZE + 1` bytes with both filenames present is rejected
with the audio-size message and an empty storage trace. -/
theorem request_upload_validation_errors_witness :
    request_upload "u1" (fun c => (c.path, "tok"))
      ⟨some "song.mp3", some "cover.png", some ((MAX_AUDIO_SIZE : Int) + 1), none⟩
      = (.err 400 "Audio too large. Max: 50MB", []) :=
  (request_upload_validation_errors "u1" (fun c => (c.path, "tok"))
      ⟨some "song.mp3", some "cover.png", some ((MAX_AUDIO_SIZE : Int) + 1), none⟩).2.1
    (by decide) (by decide) (by decide)

/-- Claim C9: a body that supplies both filenames but omits `audio_size` and
`cover_size` has the omitted sizes default to 0, passes both limit checks, and
proceeds to signed-URL generation: the handler returns the success payload and
its storage trace holds exactly the two signed-upload-URL calls. -/
theorem request_upload_missing_sizes_proceed (uuid : String)
    (sign : StorageCall → String × String) (b : RequestUploadBody)
    (ha : truthy b.audio_filename = true) (hc : truthy b.cover_filename = true)
    (hsa : b.audio_size = none) (hsc : b.cover_size = none) :
    ∃ payload,
      (request_upload uuid sign b).1 = .ok payload ∧
      (request_upload uuid sign b).2
        = [⟨"music", payload.audio_path⟩, ⟨"covers", payload.cover_path⟩] := by
  have key : request_upload uuid sign b = (.ok
      { upload_id := uuid
        audio_upload_url :=
          (sign ⟨"music", "audios/" ++ uuid ++ "_" ++ sanitize_filename (b.audio_filename.getD "")⟩).1
        audio_path := "audios/" ++ uuid ++ "_" ++ sanitize_filename (b.audio_filename.getD "")
        audio_token :=
          (sign ⟨"music", "audios/" ++ uuid ++ "_" ++ sanitize_filename (b.audio_filename.getD "")⟩).2
        cover_upload_url :=
          (sign ⟨"covers", uuid ++ "_" ++ sanitize_filename (b.cover_filename.getD "")⟩).1
        cover_path := uuid ++ "_" ++ sanitize_filename (b.cover_filename.getD "")
        cover_token :=
          (sign ⟨"covers", uuid ++ "_" ++ sanitize_filename (b.cover_filename.getD "")⟩).2
        expires_in := 900 },
      [⟨"music", "audios/" ++ uuid ++ "_" ++ sanitize_filename (b.audio_filename.getD "")⟩,
       ⟨"covers", uuid ++ "_" ++ sanitize_filename (b.cover_filename.getD "")⟩]) := by
    simp [request_upload, ha, hc, hsa, hsc, MAX_AUDIO_SIZE, MAX_COVER_SIZE]
  exact ⟨_, by rw [key], by rw [key]⟩

/-- Concrete instantiation of `request_upload_missing_sizes_proceed`: both
filenames present, no size fields, and the call reaches the two storage
calls. -/
theorem request_upload_missing_sizes_proceed_witness :
    ∃ payload,
      (request_upload "u1" (fun c => (c.path, "tok"))
          ⟨some "song.mp3", some "cover.png", none, none⟩).1 = .ok payload ∧
      (request_upload "u1" (fun c => (c.path, "tok"))
          ⟨some "song.mp3", some "cover.png", none, none⟩).2
        = [⟨"music", payload.audio_path⟩, ⟨"covers", payload.cover_path⟩] :=
  request_upload_missing_sizes_proceed "u1" (fun c => (c.path, "tok"))
    ⟨some "song.mp3", some "cover.png", none, none⟩ rfl rfl rfl rfl

/-! ## Claim C10: signup validation -/

/-- Claim C10: every signup POST in which the stripped email, password or
username is empty, the stripped password is shorter than 8 characters, or the
stripped username is shorter than 3 characters, is rejected with a redirect
back to the signup page carrying an error message, and no `sign_up` call is
issued to the external service. -/
theorem signup_validation_rejects (form : SignupForm) (auth : AuthSignUpResult)
    (h : pyStrip (form.email.getD "") = "" ∨ pyStrip (form.password.getD "") = "" ∨
         pyStrip (form.username.getD "") = "" ∨
         (pyStrip (form.password.getD "")).length < 8 ∨
         (pyStrip (form.username.getD "")).length < 3) :
    ∃ msg, signup_post form auth = (.redirectSignup msg, 0, none) := by
  by_cases he : pyStrip (form.email.getD "") = "" ∨ pyStrip (form.password.getD "") = "" ∨
      pyStrip (form.username.getD "") = ""
  · exact ⟨"All fields required.", by simp only [signup_post]; rw [if_pos he]⟩
  · by_cases hp : (pyStrip (form.password.getD "")).length < 8
    · exact ⟨"Password must be at least 8 characters.",
        by simp only [signup_post]; rw [if_neg he, if_pos hp]⟩
    · by_cases hu : (pyStrip (form.username.getD "")).length < 3
      · exact ⟨"Username must be at least 3 characters.",
          by simp only [signup_post]; rw [if_neg he, if_neg hp, if_pos hu]⟩
      · rcases h with h | h | h | h | h
        · exact absurd (Or.inl h) he
        · exact absurd (Or.inr (Or.inl h)) he
        · exact absurd (Or.inr (Or.inr h)) he
        · exact absurd h hp
        · exact absurd h hu

/-- Concrete instantiation of `signup_validation_rejects`: a 5-character
password is rejected before any `sign_up` call. -/
theorem signup_validation_rejects_witness :
    ∃ msg, signup_post ⟨some "a@b.c", some "short", some "user"⟩ .raises
      = (.redirectSignup msg, 0, none) :=
  signup_validation_rejects ⟨some "a@b.c", some "short", some "user"⟩ .raises (by decide)

/-! ## Claim C5: token refresh before dispatch -/

/-- Claim C5: when a session exists and its recorded expiry is less than the
300-second buffer away from the current time, the hook makes exactly one
`refresh_session` call with the stored refresh token (none when no token is
stored); on fresh tokens the session's access token, refresh token and expiry
are replaced in place and the request proceeds; on failure (missing token,
collaborator exception, or falsy response session) the session is destroyed
and the caller is redirected to log in unless the endpoint is in the
allow-list `login, signup, index, static`. -/
theorem refresh_token_if_needed_spec (u : SessionUser) (now : Int) (endpoint : String)
    (oracle : RefreshOutcome)
    (hexp : u.expires_at.getD 0 - now < TOKEN_REFRESH_BUFFER) :
    ((refresh_token_if_needed (some u) now endpoint oracle).2.2
        = if truthy u.refresh_token then [u.refresh_token.getD ""] else []) ∧
    (∀ atok rtok exp, truthy u.refresh_token = true → oracle = .refreshed atok rtok exp →
      refresh_token_if_needed (some u) now endpoint oracle
        = (some { u with access_token := some atok, refresh_token := some rtok,
                         expires_at := some exp }, .proceed, [u.refresh_token.getD ""])) ∧
    (truthy u.refresh_token = false ∨ oracle = .raises ∨ oracle = .noSession →
      (refresh_token_if_needed (some u) now endpoint oracle).1 = none ∧
      (refresh_token_if_needed (some u) now endpoint oracle).2.1
        = if endpoint ∈ ["login", "signup", "index", "static"] then .proceed
          else .redirectLogin "Session expired. Please log in again.") := by
  have hcheck : check_token_expiry (some u) now = true := by
    simp [check_token_expiry, hexp]
  refine ⟨?_, fun atok rtok exp ht ho => ?_, fun hfail => ?_⟩
  · by_cases ht : truthy u.refresh_token
    · rcases oracle with _ | _ | ⟨a, r, e⟩ <;>
        by_cases hm : endpoint ∈ ["login", "signup", "index", "static"] <;>
        simp [refresh_token_if_needed, refresh_user_token, hcheck, ht, hm]
    · by_cases hm : endpoint ∈ ["login", "signup", "index", "static"] <;>
        simp [refresh_token_if_needed, refresh_user_token, hcheck, ht, hm]
  · subst ho
    simp [refresh_token_if_needed, refresh_user_token, hcheck, ht]
  · rcases hfail with ht | ho | ho
    · by_cases hm : endpoint ∈ ["login", "signup", "index", "static"] <;>
        simp [refresh_token_if_needed, refresh_user_token, hcheck, ht, hm]
    · subst ho
      by_cases ht : truthy u.refresh_token <;>
        by_cases hm : endpoint ∈ ["login", "signup", "index", "static"] <;>
        simp [refresh_token_if_needed, refresh_user_token, hcheck, ht, hm]
    · subst ho
      by_cases ht : truthy u.refresh_token <;>
        by_cases hm : endpoint ∈ ["login", "signup", "index", "static"] <;>
        simp [refresh_token_if_needed, refresh_user_token, hcheck, ht, hm]

/-- Concrete instantiation of `refresh_token_if_needed_spec`: a session 100
seconds from expiry is refreshed in place with one collaborator call. -/
theorem refresh_token_if_needed_spec_witness :
    refresh_token_if_needed (some ⟨"uid", "e@x.y", "u", some "at", some "rt", some 1000⟩)
        900 "profile" (.refreshed "at2" "rt2" 5000)
      = (some ⟨"uid", "e@x.y", "u", some "at2", some "rt2", some 5000⟩, .proceed, ["rt"]) :=
  (refresh_token_if_needed_spec ⟨"uid", "e@x.y", "u", some "at", some "rt", some 1000⟩
      900 "profile" (.refreshed "at2" "rt2" 5000) (by decide)).2.1
    "at2" "rt2" 5000 (by decide) rfl

/-! ## Claim C6: the like toggle is self-inverse -/

theorem filter_isEmpty_eq_not_any {α : Type} (p : α → Bool) (l : List α) :
    (l.filter p).isEmpty = !(l.any p) := by
  induction l with
  | nil => rfl
  | cons a t ih => by_cases h : p a <;> simp [List.filter_cons, List.any_cons, h, ih]

theorem any_filter_not {α : Type} (p : α → Bool) (l : List α) :
    ((l.filter fun a => !(p a)).any p) = false := by
  induction l with
  | nil => rfl
  | cons a t ih => by_cases h : p a <;> simp [List.filter_cons, h, ih]

theorem decrement_increment (songs : List Song) (sid : Nat) :
    decrement_likes (increment_likes songs sid) sid = songs := by
  induction songs with
  | nil => rfl
  | cons s rest ih =>
    simp only [increment_likes, decrement_likes, List.map_cons, List.map_map] at ih ⊢
    by_cases h : s.id = sid
    · simp [h, ih]
      rw [← h]
    · simp [h, ih]

theorem increment_decrement (songs : List Song) (sid : Nat) :
    increment_likes (decrement_likes songs sid) sid = songs := by
  induction songs with
  | nil => rfl
  | cons s rest ih =>
    simp only [increment_likes, decrement_likes, List.map_cons, List.map_map] at ih ⊢
    by_cases h : s.id = sid
    · simp [h, ih]
      rw [← h]
    · simp [h, ih]

/-- Claim C6: for a single sequential caller, toggling the like for a
(user, song) pair twice with no interleaved operations restores the original
state: the existence of the Like row for the pair and the song's like counter
(as re-read by the handler) both return to their values before the first
toggle. -/
theorem like_toggle_involutive (db : MusicDB) (user_id : String) (song_id : Nat) :
    hasLike ((like_song ((like_song db user_id song_id).1) user_id song_id).1).likes
        user_id song_id
      = hasLike db.likes user_id song_id ∧
    selectLikesSingle ((like_song ((like_song db user_id song_id).1) user_id song_id).1).songs
        song_id
      = selectLikesSingle db.songs song_id := by
  by_cases h : db.likes.any (fun l => l.user_id == user_id && l.song_id == song_id)
  · have h1 : (db.likes.filter
        (fun l => l.user_id == user_id && l.song_id == song_id)).isEmpty = false := by
      rw [filter_isEmpty_eq_not_any, h]; rfl
    have h2 : ((db.likes.filter (fun l => !(l.user_id == user_id && l.song_id == song_id))).filter
        (fun l => l.user_id == user_id && l.song_id == song_id)).isEmpty = true := by
      rw [filter_isEmpty_eq_not_any, any_filter_not]; rfl
    simp only [like_song, h1, Bool.false_eq_true, if_false, h2, if_true]
    constructor
    · simp [hasLike, h]
    · rw [increment_decrement]
  · have hf : db.likes.any (fun l => l.user_id == user_id && l.song_id == song_id) = false := by
      simpa using h
    have h1 : (db.likes.filter
        (fun l => l.user_id == user_id && l.song_id == song_id)).isEmpty = true := by
      rw [filter_isEmpty_eq_not_any, hf]; rfl
    have h2 : ((db.likes ++ [(⟨user_id, song_id⟩ : LikeRow)]).filter
        (fun l => l.user_id == user_id && l.song_id == song_id)).isEmpty = false := by
      rw [filter_isEmpty_eq_not_any]
      simp
    simp only [like_song, h1, h2, Bool.false_eq_true, if_false, if_true]
    constructor
    · simp [hasLike, any_filter_not, hf]
      intro x _ hd hu
      rcases hd with hd | hd
      · exact absurd hu hd
      · exact hd
    · rw [decrement_increment]

/-! ## Claims C1, C2 and C8: finalize-upload -/

/-- Claim C1 fails on the code: on an administrator finalize-upload call with
all fields present and both referenced objects in storage, the handler does
not insert a Song row and does not return success — evaluating the creation
timestamp raises (see `created_at_now_utc`), the outer `except` catches it,
and the call returns 500 with the `songs` table unchanged. -/
theorem finalize_upload_valid_call_returns_500 :
    finalize_upload exFinalizeEnv "admin-id" [] exFinalizeBody
      = (.err 500 "Could not finalize upload", []) := by rfl

/-- Claim C2: a finalize-upload call whose fields are all present but in
which the audio or the cover object is absent from its expected location (the
listing of the containing folder has no entry named like the path's basename)
returns the 400 verification error and leaves the `songs` table unchanged. -/
theorem finalize_upload_verification_failure (env : FinalizeEnv) (uid : String)
    (songs : List Song) (b : FinalizeBody)
    (hb : (pyStrip (b.title.getD "") != "" && pyStrip (b.artist.getD "") != "" &&
           truthy b.audio_path && truthy b.cover_path && truthy b.upload_id) = true)
    (audio_info cover_info : List String)
    (hl1 : env.listMusic (dirname (b.audio_path.getD "")) = .ok audio_info)
    (hl2 : env.listCovers (dirname (b.cover_path.getD "")) = .ok cover_info)
    (habsent : audio_info.any (fun f => f == basename (b.audio_path.getD "")) = false ∨
               cover_info.any (fun f => f == basename (b.cover_path.getD "")) = false) :
    finalize_upload env uid songs b = (.err 400 "File verification failed", songs) := by
  unfold finalize_upload finalize_upload_with
  simp only [hb, Bool.not_true, Bool.false_eq_true, if_false]
  rw [hl1, hl2]
  rcases habsent with ha | ha <;> simp [ha]

/-- Concrete instantiation of `finalize_upload_verification_failure`: the
cover object is missing from the covers bucket. -/
theorem finalize_upload_verification_failure_witness :
    finalize_upload
        { exFinalizeEnv with listCovers := fun _ => .ok [] }
        "admin-id" [] exFinalizeBody
      = (.err 400 "File verification failed", []) :=
  finalize_upload_verification_failure
    { exFinalizeEnv with listCovers := fun _ => .ok [] }
    "admin-id" [] exFinalizeBody (by decide) ["u1_song.mp3"] [] rfl rfl
    (Or.inr (by decide))

theorem le_foldr_max (a : Nat) (l : List Nat) (h : a ∈ l) : a ≤ l.foldr max 0 := by
  induction l with
  | nil => cases h
  | cons x t ih =>
    rcases List.mem_cons.mp h with rfl | h2
    · exact le_max_left _ _
    · exact le_trans (ih h2) (le_max_right _ _)

theorem finalize_upload_with_ok_success (ts : String) (env : FinalizeEnv) (uid : String)
    (songs : List Song) (b : FinalizeBody)
    (hb : (pyStrip (b.title.getD "") != "" && pyStrip (b.artist.getD "") != "" &&
           truthy b.audio_path && truthy b.cover_path && truthy b.upload_id) = true)
    (audio_info cover_info : List String)
    (hl1 : env.listMusic (dirname (b.audio_path.getD "")) = .ok audio_info)
    (hl2 : env.listCovers (dirname (b.cover_path.getD "")) = .ok cover_info)
    (hae : audio_info.any (fun f => f == basename (b.audio_path.getD "")) = true)
    (hce : cover_info.any (fun f => f == basename (b.cover_path.getD "")) = true) :
    ∃ row : Song, row.id = nextId songs ∧
      finalize_upload_with (.ok ts) env uid songs b
        = (.ok (nextId songs), songs ++ [row]) := by
  refine ⟨{ id := nextId songs, title := pyStrip (b.title.getD ""),
            artist := pyStrip (b.artist.getD ""),
            featured_artist := if pyStrip (b.featured_artist.getD "") != "" then
                some (pyStrip (b.featured_artist.getD "")) else none,
            audio_url := env.publicUrl "music" (b.audio_path.getD ""),
            cover_url := env.publicUrl "covers" (b.cover_path.getD ""),
            uploader_id := uid, streams := 0, likes := 0, created_at := ts }, rfl, ?_⟩
  unfold finalize_upload_with
  simp only [hb, Bool.not_true, Bool.false_eq_true, if_false]
  rw [hl1, hl2]
  simp [hae, hce]

/-- Claim C8: finalize-upload is not idempotent.  With the same body and the
same storage state (both referenced objects present), two successive
successful calls — over the spec-intended call-time timestamp, see
`finalize_upload_fixed` — each insert a row: the table grows by two rows and
the two returned identifiers are distinct; no step consults the correlation
id against previously inserted rows. -/
theorem finalize_upload_fixed_not_idempotent (env : FinalizeEnv) (uid now : String)
    (songs : List Song) (b : FinalizeBody)
    (hb : (pyStrip (b.title.getD "") != "" && pyStrip (b.artist.getD "") != "" &&
           truthy b.audio_path && truthy b.cover_path && truthy b.upload_id) = true)
    (audio_info cover_info : List String)
    (hl1 : env.listMusic (dirname (b.audio_path.getD "")) = .ok audio_info)
    (hl2 : env.listCovers (dirname (b.cover_path.getD "")) = .ok cover_info)
    (hae : audio_info.any (fun f => f == basename (b.audio_path.getD "")) = true)
    (hce : cover_info.any (fun f => f == basename (b.cover_path.getD "")) = true) :
    ∃ id1 id2,
      (finalize_upload_fixed env uid now songs b).1 = .ok id1 ∧
      (finalize_upload_fixed env uid now (finalize_upload_fixed env uid now songs b).2 b).1
        = .ok id2 ∧
      id1 ≠ id2 ∧
      (finalize_upload_fixed env uid now (finalize_upload_fixed env uid now songs b).2 b).2.length
        = songs.length + 2 := by
  obtain ⟨row1, hid1, heq1⟩ :=
    finalize_upload_with_ok_success now env uid songs b hb audio_info cover_info hl1 hl2 hae hce
  obtain ⟨row2, hid2, heq2⟩ :=
    finalize_upload_with_ok_success now env uid (songs ++ [row1]) b hb audio_info cover_info
      hl1 hl2 hae hce
  have hlt : nextId songs < nextId (songs ++ [row1]) := by
    have hm : row1.id ∈ (songs ++ [row1]).map Song.id :=
      List.mem_map_of_mem Song.id (List.mem_append_right _ (List.mem_singleton_self _))
    have hle := le_foldr_max _ _ hm
    rw [hid1] at hle
    unfold nextId at hle ⊢
    omega
  refine ⟨nextId songs, nextId (songs ++ [row1]), ?_, ?_, Nat.ne_of_lt hlt, ?_⟩
  · simp [finalize_upload_fixed, heq1]
  · simp [finalize_upload_fixed, heq1, heq2]
  · simp [finalize_upload_fixed, heq1, heq2]

/-- Concrete instantiation of `finalize_upload_fixed_not_idempotent` at the
example environment and body. -/
theorem finalize_upload_fixed_not_idempotent_witness :
    ∃ id1 id2,
      (finalize_upload_fixed exFinalizeEnv "admin-id" "2026-01-01T00:00:00+00:00"
          [] exFinalizeBody).1 = .ok id1 ∧
      (finalize_upload_fixed exFinalizeEnv "admin-id" "2026-01-01T00:00:00+00:00"
          (finalize_upload_fixed exFinalizeEnv "admin-id" "2026-01-01T00:00:00+00:00"
            [] exFinalizeBody).2 exFinalizeBody).1 = .ok id2 ∧
      id1 ≠ id2 ∧
      (finalize_upload_fixed exFinalizeEnv "admin-id" "2026-01-01T00:00:00+00:00"
          (finalize_upload_fixed exFinalizeEnv "admin-id" "2026-01-01T00:00:00+00:00"
            [] exFinalizeBody).2 exFinalizeBody).2.length = ([] : List Song).length + 2 :=
  finalize_upload_fixed_not_idempotent exFinalizeEnv "admin-id" "2026-01-01T00:00:00+00:00"
    [] exFinalizeBody (by decide) ["u1_song.mp3"] ["u1_cover.png"] rfl rfl
    (by decide) (by decide)

/-! ## Claim C7: orphan cleanup safety -/

/-- Claim C7: one cleanup run never removes an object whose age is at most
the one-day grace period and never removes an object whose path is referenced
by the audio URL of a Song row; every object it removes is both older than
one day and unreferenced by every Song row. -/
theorem cleanup_orphaned_files_safety (now : Int) (storage_files : List MusicObject)
    (audio_urls : List String) :
    (∀ f ∈ storage_files, now - f.created_at ≤ GRACE_PERIOD →
        f ∉ cleanup_orphaned_files now storage_files audio_urls) ∧
    (∀ f ∈ storage_files, f.name ∈ db_paths audio_urls →
        f ∉ cleanup_orphaned_files now storage_files audio_urls) ∧
    (∀ f ∈ cleanup_orphaned_files now storage_files audio_urls,
        now - f.created_at > GRACE_PERIOD ∧ f.name ∉ db_paths audio_urls) := by
  refine ⟨fun f hf hage hmem => ?_, fun f hf href hmem => ?_, fun f hf => ?_⟩
  · have hp := (List.mem_filter.mp hmem).2
    simp only [Bool.and_eq_true, decide_eq_true_eq] at hp
    exact absurd hp.2 (not_lt.mpr hage)
  · have hp := (List.mem_filter.mp hmem).2
    simp only [Bool.and_eq_true, Bool.not_eq_true'] at hp
    have h2 : (db_paths audio_urls).contains f.name = true := List.elem_eq_true_of_mem href
    rw [hp.1] at h2
    exact Bool.false_ne_true h2
  · have hp := (List.mem_filter.mp hf).2
    simp only [Bool.and_eq_true, Bool.not_eq_true', decide_eq_true_eq] at hp
    refine ⟨hp.2, fun hmem2 => ?_⟩
    have h2 : (db_paths audio_urls).contains f.name = true := List.elem_eq_true_of_mem hmem2
    rw [hp.1] at h2
    exact Bool.false_ne_true h2

/-- Concrete instantiation of `cleanup_orphaned_files_safety`: a 2-hour-old
orphan is not removed by a run that removes a 2-day-old orphan. -/
theorem cleanup_orphaned_files_safety_witness :
    (⟨"young.mp3", 192800⟩ : MusicObject) ∉
      cleanup_orphaned_files 200000
        [⟨"young.mp3", 192800⟩, ⟨"referenced.mp3", 0⟩, ⟨"orphan.mp3", 0⟩]
        ["https://cdn.example/storage/v1/object/public/music/referenced.mp3"] :=
  (cleanup_orphaned_files_safety 200000
      [⟨"young.mp3", 192800⟩, ⟨"referenced.mp3", 0⟩, ⟨"orphan.mp3", 0⟩]
      ["https://cdn.example/storage/v1/object/public/music/referenced.mp3"]).1
    ⟨"young.mp3", 192800⟩ (by decide) (by decide)

end Shallarr
